import Mathlib

/-
Verification development for the PLC UDP logger (src/main.rs).

The program binds a UDP socket, receives datagrams, decodes each as UTF-8 on a
spawned handler thread, sends the decoded string over an mpsc channel, and a
sink loop on the main thread (re)initializes the log4rs backend per message and
logs the message. Configuration is read from config.toml and range-checked.

The embedding below translates the relevant functions into Lean:
pure logic becomes Lean functions; process-level effects (process::exit,
panics from .unwrap(), logger-backend state) become explicit result values
and state passing.
-/

/- Bytes are modelled as natural numbers < 256; a datagram payload is a list
of bytes. -/

/-- Continuation byte test for UTF-8: 0x80 ≤ b ≤ 0xBF. -/
def isCont (b : Nat) : Bool := 0x80 ≤ b && b ≤ 0xBF

/-- Fuel-indexed UTF-8 validation, mirroring the validity predicate of Rust
std::str::from_utf8 (RFC 3629 ranges, surrogate and overlong exclusion via
the per-leader second-byte constraints). Fuel at least the list length makes
the zero-fuel branch unreachable. -/
def validUtf8Go : Nat → List Nat → Bool
  | _, [] => true
  | 0, _ :: _ => false
  | fuel + 1, b :: rest =>
    if b ≤ 0x7F then validUtf8Go fuel rest
    else if 0xC2 ≤ b && b ≤ 0xDF then
      match rest with
      | b1 :: rest1 => isCont b1 && validUtf8Go fuel rest1
      | [] => false
    else if b = 0xE0 then
      match rest with
      | b1 :: b2 :: rest2 =>
        (0xA0 ≤ b1 && b1 ≤ 0xBF) && isCont b2 && validUtf8Go fuel rest2
      | _ => false
    else if (0xE1 ≤ b && b ≤ 0xEC) || b = 0xEE || b = 0xEF then
      match rest with
      | b1 :: b2 :: rest2 => isCont b1 && isCont b2 && validUtf8Go fuel rest2
      | _ => false
    else if b = 0xED then
      match rest with
      | b1 :: b2 :: rest2 =>
        (0x80 ≤ b1 && b1 ≤ 0x9F) && isCont b2 && validUtf8Go fuel rest2
      | _ => false
    else if b = 0xF0 then
      match rest with
      | b1 :: b2 :: b3 :: rest3 =>
        (0x90 ≤ b1 && b1 ≤ 0xBF) && isCont b2 && isCont b3 && validUtf8Go fuel rest3
      | _ => false
    else if 0xF1 ≤ b && b ≤ 0xF3 then
      match rest with
      | b1 :: b2 :: b3 :: rest3 =>
        isCont b1 && isCont b2 && isCont b3 && validUtf8Go fuel rest3
      | _ => false
    else if b = 0xF4 then
      match rest with
      | b1 :: b2 :: b3 :: rest3 =>
        (0x80 ≤ b1 && b1 ≤ 0x8F) && isCont b2 && isCont b3 && validUtf8Go fuel rest3
      | _ => false
    else false

/-- Validity of a byte sequence as UTF-8, as checked by str::from_utf8 in the
packet handler (src/main.rs line 185). -/
def validUtf8 (l : List Nat) : Bool := validUtf8Go l.length l

/-- AppConfig struct (src/main.rs lines 22-26): listening_port is u16,
log_max_size_mb is u128, log_history_to_keep is u32; the unsigned values are
modelled as Nat. -/
structure AppConfig where
  listening_port : Nat
  log_max_size_mb : Nat
  log_history_to_keep : Nat
deriving DecidableEq

/-- ConfigError as used by app_config: only the Message variant is constructed
by the range checks. -/
inductive ConfigError where
  | message (msg : String)
deriving DecidableEq

/-- Rust i64 → u16 try_into: succeeds exactly when the value fits in u16. -/
def i64_to_u16 (v : Int) : Option Nat :=
  if 0 ≤ v ∧ v ≤ 65535 then some v.toNat else none

/-- Rust i64 → u128 try_into: succeeds exactly when the value is nonnegative
(every nonnegative i64 fits in u128). -/
def i64_to_u128 (v : Int) : Option Nat :=
  if 0 ≤ v then some v.toNat else none

/-- Rust i64 → u32 try_into: succeeds exactly when the value fits in u32. -/
def i64_to_u32 (v : Int) : Option Nat :=
  if 0 ≤ v ∧ v ≤ 4294967295 then some v.toNat else none

/-- The validation-and-conversion tail of app_config (src/main.rs lines
56-81), after the three i64 values have been read from config.toml. The outer
Option models panic: none is a panic of one of the try_into().unwrap() calls;
some carries the Rust function result. -/
def app_config_validate (listening_port log_max_size_mb log_history_to_keep : Int) :
    Option (Except ConfigError AppConfig) :=
  if listening_port < 0 ∨ listening_port > 65535 then
    some (Except.error (ConfigError.message "listening port must be between 0 - 65535"))
  else
    match i64_to_u16 listening_port with
    | none => none
    | some port =>
      if log_max_size_mb < 1 ∨ log_max_size_mb > 100 then
        some (Except.error (ConfigError.message "max log size must be between 1 - 100 (mb)"))
      else
        match i64_to_u128 log_max_size_mb with
        | none => none
        | some maxsize =>
          if log_history_to_keep < 0 ∨ log_history_to_keep > 1000 then
            some (Except.error (ConfigError.message "log history must be between 0 - 1000"))
          else
            match i64_to_u32 log_history_to_keep with
            | none => none
            | some hist => some (Except.ok (AppConfig.mk port maxsize hist))

/-- Outcome of main before the listener thread is spawned (src/main.rs lines
139-143): on a config error main prints it and calls process::exit(1); only on
success does it continue to logger setup and the listener. -/
inductive StartupResult where
  | running (cfg : AppConfig)
  | exited (code : Nat)
  | panicked
deriving DecidableEq

/-- The config-handling prefix of main: app_config().unwrap_or_else(exit 1).
The listener is started only in the running case. -/
def main_startup (p m h : Int) : StartupResult :=
  match app_config_validate p m h with
  | none => StartupResult.panicked
  | some (Except.error _) => StartupResult.exited 1
  | some (Except.ok cfg) => StartupResult.running cfg

/-- Log line pattern used at startup (src/main.rs line 135). -/
def LOG_PATTERN : String :=
  "\x7bd(%Y-%m-%d %H:%M:%S%.6f)\x7d | \x7b(\x7bl\x7d):5.5\x7d | \x7bm\x7d\x7bn\x7d"

/-- Log line pattern used by the sink loop for PLC messages (src/main.rs line
136): message then newline, no decoration. -/
def LOG_PATTERN_PLC : String := "\x7bm\x7d\x7bn\x7d"

/-- Fixed-window roller configuration built in logger_config (src/main.rs
lines 97-105): archive name pattern, retention count, base index 1. -/
structure RollerConfig where
  pattern : String
  count : Nat
  base : Nat
deriving DecidableEq

/-- The log4rs Config value assembled by logger_config (src/main.rs lines
91-130): encoder line pattern, size trigger (log_max_size_mb megabytes, via
byte_unit n_mb_bytes, decimal megabytes), the fixed-window roller, and the
active file path. The console and file appenders share the line pattern. -/
structure LogConfigM where
  line_pattern : String
  trigger_size : Nat
  roller : RollerConfig
  active_file : String
deriving DecidableEq

/-- logger_config (src/main.rs lines 91-130). -/
def logger_config (log_pattern : String) (appconfig : AppConfig) : LogConfigM :=
  { line_pattern := log_pattern
    trigger_size := appconfig.log_max_size_mb * 1000000
    roller := { pattern := "history/plclog_\x7b\x7d.gz"
                count := appconfig.log_history_to_keep
                base := 1 }
    active_file := "plc.log" }

/-- The process-global logger slot mutated by log4rs::init_config: none means
no global logger has been installed yet. -/
structure LoggerState where
  installed : Option LogConfigM
deriving DecidableEq

/-- Error returned by log4rs::init_config when a global logger is already
installed (log::set_boxed_logger fails the second time). -/
inductive SetLoggerError where
  | alreadyInitialized
deriving DecidableEq

/-- log4rs::init_config: installs the config as the global logger, or fails
if a global logger is already installed. -/
def log4rs_init_config (c : LogConfigM) (st : LoggerState) :
    Except SetLoggerError LoggerState :=
  match st.installed with
  | some _ => Except.error SetLoggerError.alreadyInitialized
  | none => Except.ok (LoggerState.mk (some c))

/-- logger_setup (src/main.rs lines 84-89): builds the full config and
unwraps log4rs::init_config. none models the unwrap panic. -/
def logger_setup (appconfig : AppConfig) (log_pattern : String) (st : LoggerState) :
    Option LoggerState :=
  match log4rs_init_config (logger_config log_pattern appconfig) st with
  | Except.ok st2 => some st2
  | Except.error _ => none

/-- log4rs Handle::set_config: replaces the active configuration in place;
this operation cannot fail and needs no uninstalled slot. It is the
template-only swap the commented-out code at src/main.rs line 209 would use. -/
def set_config (c : LogConfigM) (_st : LoggerState) : LoggerState :=
  LoggerState.mk (some c)

/-- The kind of backend operation a component invokes: a full backend
(re)initialization through log4rs::init_config versus an in-place swap of the
configuration through Handle::set_config. -/
inductive BackendCall where
  | fullInit (c : LogConfigM)
  | templateSwap (c : LogConfigM)
deriving DecidableEq

/-- Rendering a message under the PLC pattern (message then newline), the
pattern the sink loop installs before logging each message. The message is the
UTF-8 byte content of the decoded string; 10 is the newline byte. -/
def render_plc (msg : List Nat) : List Nat := msg ++ [10]

/-- One round of the sink loop for r in rx (src/main.rs lines 200-203): the
body calls logger_setup(&app_config, LOG_PATTERN_PLC) — a full backend
initialization — then logs r. The first component records which backend
operation the body invokes; the second is none when logger_setup panics,
otherwise the new logger state and the rendered line for r. -/
def sink_consumer_step (appconfig : AppConfig) (st : LoggerState) (r : List Nat) :
    BackendCall × Option (LoggerState × List Nat) :=
  (BackendCall.fullInit (logger_config LOG_PATTERN_PLC appconfig),
   match logger_setup appconfig LOG_PATTERN_PLC st with
   | none => none
   | some st2 => some (st2, render_plc r))

/-- The logger initialization main performs at startup (src/main.rs line 146),
from the initial state with no global logger installed. -/
def main_startup_logger (appconfig : AppConfig) : Option LoggerState :=
  logger_setup appconfig LOG_PATTERN (LoggerState.mk none)

/-- Result of one packet-handler thread (src/main.rs lines 182-191): decode
the truncated buffer as UTF-8 with unwrap — panicking the handler thread on
invalid input — and on success send the string over the channel; a send error
is logged and the handler exits. -/
inductive HandlerOutcome where
  | sent (msg : List Nat)
  | panicked
  | sendErrorLogged
deriving DecidableEq

/-- packet handler body (src/main.rs lines 182-191): buf is the 1500-byte
receive buffer, amt the received length; the handler decodes buf[..amt]. -/
def packet_handler (buf : List Nat) (amt : Nat) (channelOpen : Bool) : HandlerOutcome :=
  let data := List.take amt buf
  if validUtf8 data then
    if channelOpen then HandlerOutcome.sent data else HandlerOutcome.sendErrorLogged
  else HandlerOutcome.panicked

/-- The full pipeline on the first datagram after startup: main installs the
startup logger (src/main.rs line 146), the listener spawns a packet handler
for the datagram, the handler sends the decoded string over the channel, and
the sink loop takes it (src/main.rs lines 200-203). The result is the list of
rendered log lines the sink produces for that datagram, or none when the
process panics on the main thread. -/
def pipeline_first_datagram (appconfig : AppConfig) (buf : List Nat) (amt : Nat) :
    Option (List (List Nat)) :=
  match main_startup_logger appconfig with
  | none => none
  | some st1 =>
    match packet_handler buf amt true with
    | HandlerOutcome.sent msg =>
      match (sink_consumer_step appconfig st1 msg).2 with
      | none => none
      | some (_, line) => some [line]
    | _ => some []

/-- System calls and effects performed by the listener thread, in order. -/
inductive SysOp where
  | opBind (addr : String)
  | opExit (code : Nat)
  | opTryClone
  | opRecv
  | opSpawnHandler (payload : List Nat) (src : String)
  | opLogError (e : String)
deriving DecidableEq

/-- Environment input to one listener-loop iteration: whether
socket.try_clone() succeeds, and the result of recv_from — an error string,
or the received length, the 1500-byte buffer content and the sender address. -/
structure IterInput where
  cloneOk : Bool
  recv : Except String (Nat × List Nat × String)

/-- Outcome of one listener-loop iteration (src/main.rs lines 169-197). -/
inductive IterOutcome where
  | exited (code : Nat)
  | handled (payload : List Nat) (src : String)
  | recvErrorLogged (e : String)
deriving DecidableEq

/-- True exactly for the outcome that terminates the process. -/
def isExit : IterOutcome → Bool
  | IterOutcome.exited _ => true
  | _ => false

/-- One iteration of the listener loop (src/main.rs lines 169-197): clone the
socket (exit(1) on failure), then recv_from; on Ok spawn a handler on the
truncated payload, on Err log the error. Returns the ops performed and the
outcome. -/
def listener_iteration (inp : IterInput) : List SysOp × IterOutcome :=
  if inp.cloneOk then
    match inp.recv with
    | Except.ok (amt, buf, src) =>
      ([SysOp.opTryClone, SysOp.opRecv, SysOp.opSpawnHandler (List.take amt buf) src],
       IterOutcome.handled (List.take amt buf) src)
    | Except.error e =>
      ([SysOp.opTryClone, SysOp.opRecv, SysOp.opLogError e],
       IterOutcome.recvErrorLogged e)
  else ([SysOp.opTryClone, SysOp.opExit 1], IterOutcome.exited 1)

/-- The listener loop run over a finite prefix of environment inputs. A
process exit ends the run; otherwise the loop continues with the next input.
Returns the concatenated op trace and the iteration outcomes. -/
def listener_loop : List IterInput → List SysOp × List IterOutcome
  | [] => ([], [])
  | inp :: rest =>
    if isExit (listener_iteration inp).2 then
      ((listener_iteration inp).1, [(listener_iteration inp).2])
    else
      ((listener_iteration inp).1 ++ (listener_loop rest).1,
       (listener_iteration inp).2 :: (listener_loop rest).2)

/-- Address string main builds for the bind (src/main.rs line 158). -/
def bind_addr (appconfig : AppConfig) : String :=
  "0.0.0.0:" ++ toString appconfig.listening_port

/-- The listener thread (src/main.rs lines 160-198): bind, exiting the
process with status 1 on failure (src/main.rs lines 161-166), otherwise run
the receive loop. -/
def udp_listener_thread (appconfig : AppConfig) (bindOk : Bool)
    (inputs : List IterInput) : List SysOp × List IterOutcome :=
  if bindOk then
    (SysOp.opBind (bind_addr appconfig) :: (listener_loop inputs).1,
     (listener_loop inputs).2)
  else
    ([SysOp.opBind (bind_addr appconfig), SysOp.opExit 1], [IterOutcome.exited 1])

/-- Number of bind attempts in an op trace. -/
def countBinds : List SysOp → Nat
  | [] => 0
  | SysOp.opBind _ :: rest => countBinds rest + 1
  | _ :: rest => countBinds rest

/-- Number of try_clone calls in an op trace. -/
def countClones : List SysOp → Nat
  | [] => 0
  | SysOp.opTryClone :: rest => countClones rest + 1
  | _ :: rest => countClones rest

/-- Modelled from the spec: the rotation and retention mechanics live in the
log4rs library (FixedWindowRoller), whose code is not part of this
repository; src/main.rs lines 97-107 only configure it with base index 1 and
count log_history_to_keep. Per the spec, on rotation the newly archived file
becomes index 1 (the most recent archive), existing archives shift one index
up, and any archive whose index would exceed the retention count is deleted.
Archives are modelled as a list, head = index 1 = most recent. -/
def roll_archives (count : Nat) (archives : List Nat) (newArchive : Nat) : List Nat :=
  List.take count (newArchive :: archives)

/-- A sequence of rotations applied in order to an initially empty archive
set; each element of files is the identity of the file archived by that
rotation, oldest rotation first. -/
def roll_many (count : Nat) (files : List Nat) : List Nat :=
  files.foldl (fun acc f => roll_archives count acc f) []

/-- Concrete configuration from the spec scenario: port 9999, 1 MB max size,
history 2. -/
def cfg_scenario : AppConfig := AppConfig.mk 9999 1 2

/-- The bytes of the ASCII payload temp=21.5 from the spec scenario. -/
def payload_temp : List Nat := [116, 101, 109, 112, 61, 50, 49, 46, 53]

/-- C1: the claim says a non-UTF-8 datagram is handled by recording the
decode error and discarding the datagram without a crash. The code instead
unwraps str::from_utf8, so on the one-byte payload 0xFF the packet handler
panics: no decode error is recorded and the handler thread crashes. -/
theorem C1_decode_unwrap_panics :
    validUtf8 [255] = false ∧
    packet_handler (255 :: List.replicate 1499 0) 1 true = HandlerOutcome.panicked := by
  decide

/-- C2: each round of the sink loop invokes a full backend initialization
(logger_setup, building the complete config) for the message it handles, and
never the template-only swap set_config. -/
theorem C2_sink_full_reinit (appconfig : AppConfig) (st : LoggerState) (r : List Nat) :
    (sink_consumer_step appconfig st r).1 =
      BackendCall.fullInit (logger_config LOG_PATTERN_PLC appconfig) ∧
    ∀ c : LogConfigM, (sink_consumer_step appconfig st r).1 ≠ BackendCall.templateSwap c := by
  refine ⟨rfl, ?_⟩
  intro c hc
  simp [sink_consumer_step] at hc

/-- C3: main installs a global logger at startup, so on the first message the
sink loop's logger_setup unwraps the Err of log4rs::init_config and panics
the main loop. -/
theorem C3_first_message_panics (appconfig : AppConfig) (r : List Nat) :
    ∃ st1, main_startup_logger appconfig = some st1 ∧
      (∃ c, st1.installed = some c) ∧
      (sink_consumer_step appconfig st1 r).2 = none := by
  exact ⟨LoggerState.mk (some (logger_config LOG_PATTERN appconfig)), rfl,
    ⟨logger_config LOG_PATTERN appconfig, rfl⟩, rfl⟩

/-- C4: the claim says every UTF-8 payload of at most 1500 bytes comes out as
a rendered log line containing that text. On the code, the sink panics while
handling the first message (logger already installed), so even the valid
ASCII payload temp=21.5 of the spec scenario yields no rendered line: the
pipeline ends in a main-thread panic (none). -/
theorem C4_roundtrip_broken :
    validUtf8 payload_temp = true ∧ payload_temp.length ≤ 1500 ∧
    pipeline_first_datagram cfg_scenario payload_temp payload_temp.length = none := by
  decide

/-- Taking n of an append absorbs an inner take n on the right summand. -/
theorem take_append_take (n : Nat) (l m : List Nat) :
    List.take n (l ++ List.take n m) = List.take n (l ++ m) := by
  rw [List.take_append_eq_append_take, List.take_append_eq_append_take, List.take_take,
    Nat.min_eq_left (Nat.sub_le n l.length)]

/-- Folding rotations over a file sequence keeps the most recent count
archives: the fold from any small-enough accumulator is a take of the
reversed sequence. -/
theorem roll_fold_take (count : Nat) (files : List Nat) :
    ∀ acc : List Nat, acc.length ≤ count →
    List.foldl (fun a f => roll_archives count a f) acc files =
      List.take count (files.reverse ++ acc) := by
  induction files with
  | nil => intro acc h; simp [List.take_of_length_le h]
  | cons f fs ih =>
    intro acc h
    have h2 : (roll_archives count acc f).length ≤ count := by
      simp [roll_archives, List.length_take]
    calc List.foldl (fun a g => roll_archives count a g) acc (f :: fs)
        = List.foldl (fun a g => roll_archives count a g) (roll_archives count acc f) fs := by
          simp [List.foldl]
      _ = List.take count (fs.reverse ++ roll_archives count acc f) := ih _ h2
      _ = List.take count (fs.reverse ++ (f :: acc)) := take_append_take count fs.reverse (f :: acc)
      _ = List.take count ((f :: fs).reverse ++ acc) := by simp

/-- The archive set after a sequence of rotations from empty is the most
recent count files, newest first. -/
theorem roll_many_eq (count : Nat) (files : List Nat) :
    roll_many count files = List.take count files.reverse := by
  have h := roll_fold_take count files [] (by simp)
  simpa [roll_many] using h

/-- C5: with retention count K, the archive count never exceeds K after a
rotation; and after K+1 rotations (of files labelled 0..K, oldest rotation
first) exactly K archives exist and the oldest archive (label 0) is gone. -/
theorem C5_retention_invariant (K : Nat) :
    (∀ (archives : List Nat) (f : Nat), (roll_archives K archives f).length ≤ K) ∧
    (roll_many K (List.range (K + 1))).length = K ∧
    0 ∉ roll_many K (List.range (K + 1)) := by
  refine ⟨?_, ?_, ?_⟩
  · intro archives f
    simp [roll_archives, List.length_take]
  · rw [roll_many_eq]
    simp [List.length_take]
  · rw [roll_many_eq]
    intro hmem
    rw [List.mem_iff_getElem] at hmem
    obtain ⟨i, hi, hEq⟩ := hmem
    have hiK : i < K := by
      simpa [List.length_take] using hi
    simp [List.getElem_take, List.getElem_reverse, List.getElem_range,
      List.length_range] at hEq
    omega

/-- C6: the configuration is accepted (main proceeds to the listener) exactly
when the three values are in range; any out-of-range value makes main exit
with status 1 before the listener starts. -/
theorem C6_config_validation (p m h : Int) :
    ((∃ cfg, main_startup p m h = StartupResult.running cfg) ↔
      (0 ≤ p ∧ p ≤ 65535 ∧ 1 ≤ m ∧ m ≤ 100 ∧ 0 ≤ h ∧ h ≤ 1000)) ∧
    (¬(0 ≤ p ∧ p ≤ 65535 ∧ 1 ≤ m ∧ m ≤ 100 ∧ 0 ≤ h ∧ h ≤ 1000) →
      main_startup p m h = StartupResult.exited 1) := by
  unfold main_startup app_config_validate i64_to_u16 i64_to_u128 i64_to_u32
  split_ifs <;> simp_all <;> omega

/-- Witness for C6 at concrete inputs: the out-of-range port 70000 exits with
status 1. -/
theorem C6_config_validation_witness :
    main_startup 70000 1 2 = StartupResult.exited 1 :=
  (C6_config_validation 70000 1 2).2 (by decide)

/-- The listener loop itself never attempts a bind. -/
theorem listener_loop_no_bind (inputs : List IterInput) :
    countBinds (listener_loop inputs).1 = 0 := by
  induction inputs with
  | nil => rfl
  | cons inp rest ih =>
    rcases inp with ⟨cloneOk, recv⟩
    cases cloneOk with
    | false => simp [listener_loop, listener_iteration, isExit, countBinds]
    | true =>
      cases recv with
      | error e => simp [listener_loop, listener_iteration, isExit, countBinds, ih]
      | ok v =>
        obtain ⟨amt, buf, src⟩ := v
        simp [listener_loop, listener_iteration, isExit, countBinds, ih]

/-- C7: a failed bind makes the listener thread exit the process with status
1 immediately, processing no loop iterations; and in every run, successful or
not, exactly one bind is ever attempted — the bind is never retried. -/
theorem C7_bind_failure_fatal (appconfig : AppConfig) (inputs : List IterInput) :
    udp_listener_thread appconfig false inputs =
      ([SysOp.opBind (bind_addr appconfig), SysOp.opExit 1], [IterOutcome.exited 1]) ∧
    (∀ bindOk : Bool, countBinds (udp_listener_thread appconfig bindOk inputs).1 = 1) := by
  refine ⟨rfl, ?_⟩
  intro bindOk
  cases bindOk with
  | false => rfl
  | true => simp [udp_listener_thread, countBinds, listener_loop_no_bind]

/-- C8: when the socket clone succeeds and recv_from returns an error, the
iteration records the error and the loop goes on to process the remaining
inputs — a failed receive never terminates the listener. -/
theorem C8_recv_error_continue (e : String) (rest : List IterInput) :
    listener_loop (IterInput.mk true (Except.error e) :: rest) =
      ([SysOp.opTryClone, SysOp.opRecv, SysOp.opLogError e] ++ (listener_loop rest).1,
       IterOutcome.recvErrorLogged e :: (listener_loop rest).2) := by
  simp [listener_loop, listener_iteration, isExit]

/-- C9: every loop iteration starts by cloning the socket (exactly one
try_clone per iteration), and a clone failure ends the run with a process
exit of status 1, regardless of any further pending input. -/
theorem C9_clone_per_iteration_fatal :
    (∀ inp : IterInput, (listener_iteration inp).1.head? = some SysOp.opTryClone ∧
       countClones (listener_iteration inp).1 = 1) ∧
    (∀ (r : Except String (Nat × List Nat × String)) (rest : List IterInput),
      listener_loop (IterInput.mk false r :: rest) =
        ([SysOp.opTryClone, SysOp.opExit 1], [IterOutcome.exited 1])) := by
  constructor
  · intro inp
    rcases inp with ⟨cloneOk, recv⟩
    cases cloneOk with
    | false => simp [listener_iteration, countClones]
    | true =>
      cases recv with
      | error e => simp [listener_iteration, countClones]
      | ok v =>
        obtain ⟨amt, buf, src⟩ := v
        simp [listener_iteration, countClones]
  · intro r rest
    simp [listener_loop, listener_iteration, isExit]

/-- C10: the try_into().unwrap() conversions in app_config can never panic:
each is reached only after the corresponding i64 range check succeeded, under
which the conversion is total. -/
theorem C10_conversions_never_panic (p m h : Int) :
    app_config_validate p m h ≠ none := by
  unfold app_config_validate i64_to_u16 i64_to_u128 i64_to_u32
  split_ifs <;> simp_all <;> omega
